import Mathlib

/-!
Verification development for the Telegram bot in src/bot.py.

The Python source is shallowly embedded: pure computations become Lean
functions; external collaborators (chat transport, inference gateway,
search gateway, document store, PDF extractor) are modelled by explicit
inputs describing their responses or fault points; the messages a handler
sends become explicit output lists.  Machine integers are not involved:
the only arithmetic is small Nat counting and the integer-percent
rendering of the sentiment report.
-/

namespace Bot

/-! ## String utilities mirroring the Python primitives used by bot.py -/

/-- Models Python list/str prefix test: `leadsList n h` is true when the
character list `n` is an initial segment of `h`. -/
def leadsList : List Char → List Char → Bool
  | [], _ => true
  | _ :: _, [] => false
  | a :: as, b :: bs => a == b && leadsList as bs

/-- Models Python substring search on character lists: true when `needle`
occurs contiguously inside `hay`. -/
def subList (needle : List Char) : List Char → Bool
  | [] => leadsList needle []
  | c :: rest => leadsList needle (c :: rest) || subList needle rest

/-- Models the Python membership test `needle in hay` on strings
(contiguous substring containment). -/
def strContains (hay needle : String) : Bool :=
  subList needle.toList hay.toList

/-- Drops trailing characters satisfying `q`. -/
def dropTailWhile (q : Char → Bool) (l : List Char) : List Char :=
  ((l.reverse).dropWhile q).reverse

/-- Models Python `str.strip()` (whitespace on both ends; ASCII whitespace
suffices for the texts handled here). -/
def stripStr (s : String) : String :=
  String.mk (dropTailWhile Char.isWhitespace (s.toList.dropWhile Char.isWhitespace))

/-- Models Python `str.startswith("/")` after stripping. -/
def startsWithSlash (s : String) : Bool :=
  match s.toList with
  | [] => false
  | c :: _ => c == '/'

/-- The ASCII apostrophe character as a one-character string (used by the
web-search header text in bot.py). -/
def apos : String := String.singleton (Char.ofNat 39)

/-- ASCII lower-casing of one character, as Python `str.lower()` acts on
the labels handled here. -/
def lowerChar (c : Char) : Char :=
  if 65 ≤ c.toNat ∧ c.toNat ≤ 90 then Char.ofNat (c.toNat + 32) else c

/-- Models Python `str.lower()` (ASCII range). -/
def toLowerStr (s : String) : String := String.mk (s.toList.map lowerChar)

/-! ## Sentiment analysis (bot.py, analyze_sentiment, lines 287 to 317)

The inference gateway is an external collaborator: its returned label text
is an input.  The handler strips the inbound text, returns without effect
on empty or command text, stores a sentiment record with the lower-cased
stripped label, and picks a reply by substring containment, positive
checked first. -/

/-- A row of the sentiments collection (bot.py lines 302 to 307).
Timestamps are abstracted to Nat. -/
structure SRecord where
  chat_id : Int
  message : String
  sentiment : String
  timestamp : Nat
deriving DecidableEq

def positiveReply : String := "😊 Positive vibes detected!"
def negativeReply : String := "😟 Negative sentiment noted"
def neutralReply : String := "🤔 Neutral message recorded"

/-- The reply branch of analyze_sentiment (bot.py lines 309 to 314):
positive substring checked first, then negative, else neutral. -/
def sentimentReply (sentiment : String) : String :=
  if strContains sentiment "positive" then positiveReply
  else if strContains sentiment "negative" then negativeReply
  else neutralReply

/-- Models analyze_sentiment (bot.py lines 287 to 317) for the case where
the gateway call succeeds and returns `gatewayLabel`.  Returns none when
the handler exits early (empty stripped text, or text starting with the
command marker); otherwise returns the inserted record together with the
reply text that is sent.  The record is built and inserted before the
reply branch fires, so it is present in every some result. -/
def analyze_sentiment (chat_id : Int) (now : Nat) (text gatewayLabel : String) :
    Option (SRecord × String) :=
  let t := stripStr text
  if t = "" || startsWithSlash t then none
  else
    let sentiment := toLowerStr (stripStr gatewayLabel)
    some (⟨chat_id, t, sentiment, now⟩, sentimentReply sentiment)

/-! ## Sentiment report (bot.py, generate_sentiment_report, lines 319 to 351) -/

/-- Result of generate_sentiment_report: either the start-chatting prompt
(sent when no records exist) or the statistics that fill the report text:
the three counters, the total, the three rendered integer percentages and
the mood line. -/
inductive Report where
  | startPrompt : Report
  | stats (positive neutral negative total : Nat)
      (pctPositive pctNeutral pctNegative : Nat) (mood : String) : Report
deriving DecidableEq

/-- Models the Python format `{n/total:.0%}` on exact rationals: round half
to even, computed as 100*n divided by total with the tie broken towards
the even integer.  For the totals reachable here (1 to 10) this agrees
with the float formatting in the source. -/
def pctRound (n total : Nat) : Nat :=
  let q := 100 * n / total
  let r := 100 * n % total
  if 2 * r < total then q
  else if total < 2 * r then q + 1
  else if q % 2 = 0 then q else q + 1

/-- The mood line of the report (bot.py lines 343 to 345). -/
def moodOf (positive negative : Nat) : String :=
  if positive > negative then "😊 Mostly Positive"
  else if negative > positive then "😟 Needs Support"
  else "⚖️ Balanced Emotions"

/-- Models generate_sentiment_report (bot.py lines 319 to 351) applied to
the fetched record list: empty list yields the start prompt; otherwise
each counter counts records whose stored label contains the bucket word
as a substring, total is the number of records, and percentages are the
integer-percent renderings of counter over total. -/
def generate_sentiment_report (records : List SRecord) : Report :=
  if records = [] then Report.startPrompt
  else
    let positive := records.countP (fun r => strContains r.sentiment "positive")
    let neutral := records.countP (fun r => strContains r.sentiment "neutral")
    let negative := records.countP (fun r => strContains r.sentiment "negative")
    let total := records.length
    Report.stats positive neutral negative total
      (pctRound positive total) (pctRound neutral total) (pctRound negative total)
      (moodOf positive negative)

/-- Descending insertion by timestamp, used to model the document-store
sort `sort=[("timestamp", -1)]` of the fetch in bot.py lines 322 to 326. -/
def insertDesc (r : SRecord) : List SRecord → List SRecord
  | [] => [r]
  | x :: xs => if x.timestamp ≤ r.timestamp then r :: x :: xs else x :: insertDesc r xs

/-- Sort a record list by timestamp descending. -/
def sortDesc (l : List SRecord) : List SRecord :=
  l.foldr insertDesc []

/-- Models the store query of generate_sentiment_report: the records of
the given chat, ordered by timestamp descending, limited to 10. -/
def fetchRecords (store : List SRecord) (c : Int) : List SRecord :=
  (sortDesc (store.filter (fun r => r.chat_id == c))).take 10

/-! ## Profiles and the /start handler (bot.py, handle_start, lines 55 to 71) -/

/-- A row of the users collection (bot.py lines 61 to 67). -/
structure Profile where
  chat_id : Int
  first_name : String
  username : Option String
  phone_number : Option String
  created_at : Nat
deriving DecidableEq

/-- The data of an inbound /start message that handle_start reads. -/
structure StartMsg where
  chat_id : Int
  first_name : String
  username : Option String
  now : Nat
deriving DecidableEq

def welcomeMsg : String := "👋 Welcome! Please share your phone number to continue."
def phonePromptMsg : String := "🔐 Please share your phone number:"
def mainMenuMsg : String := "🔧 Main Menu - Select an option:"

/-- The profile inserted on first contact (bot.py lines 61 to 67): phone
number unset. -/
def freshProfile (m : StartMsg) : Profile :=
  ⟨m.chat_id, m.first_name, m.username, none, m.now⟩

/-- Models handle_start (bot.py lines 55 to 71): find the profile of the
chat; if absent, insert a fresh one and send the welcome and phone
prompts; if present, send the main menu.  Returns the new store together
with the list of sent messages. -/
def handle_start (store : List Profile) (m : StartMsg) : List Profile × List String :=
  match store.find? (fun u => u.chat_id == m.chat_id) with
  | none => (store ++ [freshProfile m], [welcomeMsg, phonePromptMsg])
  | some _ => (store, [mainMenuMsg])

/-- Number of profiles stored for a chat identifier. -/
def profileCount (store : List Profile) (c : Int) : Nat :=
  store.countP (fun u => u.chat_id == c)

/-- Runs a sequence of /start invocations through handle_start. -/
def runStarts (store : List Profile) (ms : List StartMsg) : List Profile :=
  ms.foldl (fun s m => (handle_start s m).1) store

/-! ## Web search (bot.py, process_web_search, lines 146 to 177)

The search gateway is external: the ranked organic results are an input. -/

/-- One ranked result from the search gateway. -/
structure SearchResult where
  title : String
  link : String
deriving DecidableEq

def searchingMsg : String := "🔎 Searching the web..."
def noResultsMsg : String := "❌ No results found"
def searchCancelledMsg : String := "❌ Search cancelled"

/-- One line of the numbered result list (bot.py line 167). -/
def formatResult (i : Nat) (r : SearchResult) : String :=
  toString (i + 1) ++ ". [" ++ r.title ++ "](" ++ r.link ++ ")"

/-- Header of the results reply (bot.py line 170). -/
def searchHeader (query : String) : String :=
  "🌐 Top Results for " ++ apos ++ query ++ apos ++ ":\n"

/-- Models process_web_search (bot.py lines 146 to 177) for the case where
the gateway call succeeds: strips the query text, cancels on empty text,
otherwise sends the searching notice, takes the top 3 organic results and
sends either the numbered list or the no-results reply.  Returns the sent
messages in order. -/
def process_web_search (text : String) (organic : List SearchResult) : List String :=
  let query := stripStr text
  if query = "" then [searchCancelledMsg]
  else
    let results := organic.take 3
    if results = [] then [searchingMsg, noResultsMsg]
    else
      [searchingMsg,
       searchHeader query ++
         String.intercalate "\n" (results.enum.map (fun p => formatResult p.1 p.2))]

/-! ## Image handler (bot.py, handle_image, lines 259 to 281)

Fault points of the external calls are explicit inputs: `placeholderOk` is
whether sending the placeholder succeeds, `analysisOk` whether the whole
download-open-generate-resolve sequence succeeds (a fault anywhere there
lands in the except branch).  The final `finally` block deletes the
placeholder inside its own try/except, so the deletion is attempted
whenever the placeholder message exists. -/

structure ImgEnv where
  placeholderOk : Bool
  analysisOk : Bool
  description : String
  errText : String

structure ImgResult where
  sent : List String
  placeholderSent : Bool
  placeholderDeleted : Bool
deriving DecidableEq

/-- Models handle_image (bot.py lines 259 to 281).  `sent` lists the
non-placeholder messages sent. -/
def handle_image (env : ImgEnv) : ImgResult :=
  if env.placeholderOk = false then
    ⟨[], false, false⟩
  else if env.analysisOk = false then
    ⟨["⚠️ Error: " ++ env.errText], true, true⟩
  else
    ⟨["📸 Image Analysis:\n" ++ env.description,
      "💡 Ask follow-up questions about the image"], true, true⟩

/-! ## PDF handler (bot.py, handle_pdf, lines 188 to 227)

Fault points are explicit inputs.  The save step on lines 204 to 206 is
two operations: `open(pdf_path, "wb")` creates the file on disk
(`openOk`), then `f.write(file_data)` fills it (`writeOk`); a write fault
after a successful open leaves the created file on disk.  The finally
block (lines 222 to 227) runs `os.remove(pdf_path)` and then the
placeholder deletion inside a single try with a bare except: when
`pdf_path` is unbound (fault before line 204) the remove raises
NameError, and when the file was never created it raises
FileNotFoundError; either way the bare except catches it and the
placeholder deletion on line 225 is skipped.  When the file is on disk
the remove succeeds and the placeholder deletion runs. -/

structure PdfEnv where
  mimeIsPdf : Bool
  downloadOk : Bool
  openOk : Bool
  writeOk : Bool
  extractOk : Bool
  pages : List String
  classifyOk : Bool
  classifyResponse : String
  sendResultOk : Bool

structure PdfResult where
  sent : List String
  placeholderSent : Bool
  placeholderDeleted : Bool
  tempCreated : Bool
  tempDeleted : Bool
  gatewayCalled : Bool
deriving DecidableEq

/-- Models extract_text_from_pdf (bot.py lines 229 to 240): concatenates
the nonempty page texts with newlines and strips the result; any
extraction fault is caught inside the function and yields the empty
string. -/
def extract_text_from_pdf (ok : Bool) (pages : List String) : String :=
  if ok then
    stripStr (String.join ((pages.filter (fun p => p ≠ "")).map (fun p => p ++ "\n")))
  else ""

/-- Models classify_pdf_content (bot.py lines 242 to 256): returns the
gateway response, or the fixed failure text when the gateway faults (the
fault is caught inside the function, so the caller never sees it). -/
def classify_pdf_content (ok : Bool) (response : String) : String :=
  if ok then response else "⚠️ Failed to analyze document content"

/-- Models the finally block of handle_pdf (bot.py lines 222 to 227):
returns (tempDeleted, placeholderDeleted).  Both happen only when
`pdf_path` is bound and the file exists on disk; otherwise `os.remove`
raises, the bare except fires, and the placeholder deletion is skipped. -/
def pdfCleanup (pathBound fileOnDisk placeholderSent : Bool) : Bool × Bool :=
  if pathBound && fileOnDisk then (true, placeholderSent) else (false, false)

/-- Assembles a PdfResult from the pre-finally outcome and the cleanup.
`fileOnDisk` is whether the temporary file existed on disk when the
finally block ran (that is, whether open created it). -/
def finishPdf (sent : List String)
    (placeholderSent pathBound fileOnDisk gatewayCalled : Bool) : PdfResult :=
  ⟨sent, placeholderSent, (pdfCleanup pathBound fileOnDisk placeholderSent).2,
   fileOnDisk, (pdfCleanup pathBound fileOnDisk placeholderSent).1, gatewayCalled⟩

def pdfOnlyMsg : String := "⚠️ Please send a PDF file"
def pdfErrorMsg : String := "⚠️ Error processing PDF"
def noTextMsg : String := "❌ No text found in PDF"

/-- Models handle_pdf (bot.py lines 188 to 227).  `sent` lists the
non-placeholder messages sent, in order.  Branches, in source order:
wrong MIME type returns early (placeholder never sent, pdf_path unbound);
a download fault jumps to the except branch with pdf_path unbound; an
open fault leaves pdf_path bound but no file on disk; a write fault after
a successful open leaves the created file on disk; empty extracted text
short-circuits before the classification prompt; otherwise the gateway is
called and the analysis (or, on a fault while sending it, the error
apology) is sent. -/
def handle_pdf (env : PdfEnv) : PdfResult :=
  if env.mimeIsPdf = false then
    finishPdf [pdfOnlyMsg] false false false false
  else if env.downloadOk = false then
    finishPdf [pdfErrorMsg] true false false false
  else if env.openOk = false then
    finishPdf [pdfErrorMsg] true true false false
  else if env.writeOk = false then
    finishPdf [pdfErrorMsg] true true true false
  else
    let text := extract_text_from_pdf env.extractOk env.pages
    if text = "" then
      finishPdf [noTextMsg] true true true false
    else
      let classification := classify_pdf_content env.classifyOk env.classifyResponse
      if env.sendResultOk then
        finishPdf ["📑 PDF Analysis:\n" ++ classification] true true true true
      else
        finishPdf [pdfErrorMsg] true true true true

/-! ## Conversation dispatcher and Pending Steps

Modelled from the spec: the Pending Step table and its consumption rule
live in the external chat-transport library (the next-step machinery
behind register_next_step_handler); src/bot.py only registers the
continuations (lines 102 and 112).  Per the spec, the table maps a chat
identifier to a single registered continuation; if the chat has one, the
next message from that chat consumes it — the entry is cleared first and
the continuation is invoked instead of any other routing rule. -/

/-- The two continuations bot.py registers as next steps. -/
inductive Cont where
  | webSearch
  | gemini
deriving DecidableEq

/-- An inbound message as the dispatcher sees it (text content). -/
structure Msg where
  chat : Int
  text : String
deriving DecidableEq

/-- The six fixed menu labels (bot.py lines 89 to 93). -/
def menuLabels : List String :=
  ["📷 Image Analysis", "🌐 Web Search", "📊 Sentiment Report",
   "👤 My Profile", "💬 Chat with Gemini", "🛑 Stop Bot"]

/-- Routing targets when no pending step intervenes. -/
inductive NormalRoute where
  | startCmd
  | menu (label : String)
  | sentiment
deriving DecidableEq

/-- How a message was handled: by a consumed pending-step continuation, or
by the normal routing rules. -/
inductive Route where
  | step (k : Cont)
  | normal (r : NormalRoute)
deriving DecidableEq

/-- Modelled from the spec: normal routing (no pending step) follows the
handler registration order of bot.py — the /start command, then the menu
labels (two of which register a continuation for the next message), then
the catch-all sentiment handler. -/
def routeNormal (m : Msg) : NormalRoute × Option Cont :=
  if m.text = "/start" then (NormalRoute.startCmd, none)
  else if menuLabels.contains m.text then
    (NormalRoute.menu m.text,
      if m.text = "🌐 Web Search" then some Cont.webSearch
      else if m.text = "💬 Chat with Gemini" then some Cont.gemini
      else none)
  else (NormalRoute.sentiment, none)

/-- The pending-step table, keyed by chat identifier. -/
def lookupPending (p : List (Int × Cont)) (c : Int) : Option Cont :=
  (p.find? (fun e => e.1 == c)).map (fun e => e.2)

/-- Clears the pending entry of a chat. -/
def removePending (p : List (Int × Cont)) (c : Int) : List (Int × Cont) :=
  p.filter (fun e => e.1 != c)

/-- Registers a continuation for the next message of a chat (a single
registered continuation per chat: any previous entry is replaced). -/
def registerStep (p : List (Int × Cont)) (c : Int) (k : Cont) : List (Int × Cont) :=
  (c, k) :: removePending p c

/-- Modelled from the spec: one dispatch step.  A registered pending step
is consumed — cleared from the table, its continuation invoked — before
and instead of every other routing rule; otherwise the message is routed
normally and any continuation the handler asks for is registered for the
next message. -/
def dispatch (p : List (Int × Cont)) (m : Msg) : List (Int × Cont) × Route :=
  match lookupPending p m.chat with
  | some k => (removePending p m.chat, Route.step k)
  | none =>
    match routeNormal m with
    | (r, some k) => (registerStep p m.chat k, Route.normal r)
    | (r, none) => (p, Route.normal r)

/-! ## Helper lemmas about the descending sort -/

lemma mem_insertDesc {x r : SRecord} {l : List SRecord} :
    x ∈ insertDesc r l ↔ x = r ∨ x ∈ l := by
  induction l with
  | nil => simp [insertDesc]
  | cons y ys ih =>
    unfold insertDesc
    by_cases h : y.timestamp ≤ r.timestamp
    · simp [h]
    · simp [h, ih]
      tauto

lemma pairwise_insertDesc {r : SRecord} {l : List SRecord}
    (hl : l.Pairwise (fun a b => b.timestamp ≤ a.timestamp)) :
    (insertDesc r l).Pairwise (fun a b => b.timestamp ≤ a.timestamp) := by
  induction l with
  | nil => simp [insertDesc]
  | cons y ys ih =>
    rcases List.pairwise_cons.mp hl with ⟨hy, hys⟩
    unfold insertDesc
    by_cases h : y.timestamp ≤ r.timestamp
    · rw [if_pos h]
      refine List.pairwise_cons.mpr ⟨?_, hl⟩
      intro z hz
      rcases List.mem_cons.mp hz with rfl | hz2
      · exact h
      · exact le_trans (hy z hz2) h
    · rw [if_neg h]
      refine List.pairwise_cons.mpr ⟨?_, ih hys⟩
      intro z hz
      rcases mem_insertDesc.mp hz with rfl | hz2
      · exact le_of_not_le h
      · exact hy z hz2

lemma sortDesc_pairwise (l : List SRecord) :
    (sortDesc l).Pairwise (fun a b => b.timestamp ≤ a.timestamp) := by
  induction l with
  | nil => simp [sortDesc]
  | cons y ys ih => exact pairwise_insertDesc ih

lemma mem_sortDesc {x : SRecord} {l : List SRecord} (h : x ∈ sortDesc l) : x ∈ l := by
  induction l with
  | nil => simp [sortDesc] at h
  | cons y ys ih =>
    rcases mem_insertDesc.mp h with rfl | h2
    · exact List.mem_cons_self x ys
    · exact List.mem_cons_of_mem y (ih h2)

lemma moodOf_iff (p n : Nat) :
    (moodOf p n = "😊 Mostly Positive" ↔ n < p)
  ∧ (moodOf p n = "😟 Needs Support" ↔ p < n)
  ∧ (moodOf p n = "⚖️ Balanced Emotions" ↔ p = n) := by
  unfold moodOf
  by_cases h1 : p > n
  · rw [if_pos h1]
    exact ⟨iff_of_true rfl h1, iff_of_false (by decide) (by omega),
           iff_of_false (by decide) (by omega)⟩
  · rw [if_neg h1]
    by_cases h2 : n > p
    · rw [if_pos h2]
      exact ⟨iff_of_false (by decide) (by omega), iff_of_true rfl h2,
             iff_of_false (by decide) (by omega)⟩
    · rw [if_neg h2]
      exact ⟨iff_of_false (by decide) (by omega), iff_of_false (by decide) (by omega),
             iff_of_true rfl (by omega)⟩

/-! ## Claim theorems -/

/-- C1: the sentiment report for a chat is computed over the at most 10
most recent records of that chat (timestamp descending); each counter
counts records whose stored label contains the bucket word as a
substring; total is the number of fetched records; each percentage is the
counter rendered as an integer percent of total; the mood line is Mostly
Positive iff positive is greater than negative, Needs Support iff
negative is greater than positive, else Balanced; and on records
labelled positive, positive, negative the report shows 2 (67 percent),
0 (0 percent), 1 (33 percent) with mood Mostly Positive. -/
theorem c1_sentiment_report_spec (store : List SRecord) (c : Int) :
    (fetchRecords store c).length ≤ 10
  ∧ (fetchRecords store c).Pairwise (fun a b => b.timestamp ≤ a.timestamp)
  ∧ (∀ r ∈ fetchRecords store c, r.chat_id = c)
  ∧ (fetchRecords store c ≠ [] →
      generate_sentiment_report (fetchRecords store c) =
        Report.stats
          ((fetchRecords store c).countP (fun r => strContains r.sentiment "positive"))
          ((fetchRecords store c).countP (fun r => strContains r.sentiment "neutral"))
          ((fetchRecords store c).countP (fun r => strContains r.sentiment "negative"))
          (fetchRecords store c).length
          (pctRound ((fetchRecords store c).countP
            (fun r => strContains r.sentiment "positive")) (fetchRecords store c).length)
          (pctRound ((fetchRecords store c).countP
            (fun r => strContains r.sentiment "neutral")) (fetchRecords store c).length)
          (pctRound ((fetchRecords store c).countP
            (fun r => strContains r.sentiment "negative")) (fetchRecords store c).length)
          (moodOf
            ((fetchRecords store c).countP (fun r => strContains r.sentiment "positive"))
            ((fetchRecords store c).countP (fun r => strContains r.sentiment "negative"))))
  ∧ (∀ p n : Nat,
      (moodOf p n = "😊 Mostly Positive" ↔ n < p)
    ∧ (moodOf p n = "😟 Needs Support" ↔ p < n)
    ∧ (moodOf p n = "⚖️ Balanced Emotions" ↔ p = n))
  ∧ generate_sentiment_report
      [⟨0, "m1", "positive", 2⟩, ⟨0, "m2", "positive", 1⟩, ⟨0, "m3", "negative", 0⟩]
      = Report.stats 2 0 1 3 67 0 33 "😊 Mostly Positive" := by
  refine ⟨List.length_take_le 10 _, ?_, ?_, ?_, moodOf_iff, by decide⟩
  · exact List.Pairwise.sublist (List.take_sublist _ _) (sortDesc_pairwise _)
  · intro r hr
    have h1 : r ∈ sortDesc (store.filter (fun x => x.chat_id == c)) :=
      List.mem_of_mem_take hr
    have h2 := mem_sortDesc h1
    have h3 := (List.mem_filter.mp h2).2
    exact eq_of_beq h3
  · intro h
    unfold generate_sentiment_report
    rw [if_neg h]

/-- Witness for C1 at a one-record store. -/
theorem c1_sentiment_report_spec_witness :
    generate_sentiment_report (fetchRecords [⟨7, "m1", "positive", 0⟩] 7) =
      Report.stats 1 0 0 1 100 0 0 "😊 Mostly Positive" := by
  have h := (c1_sentiment_report_spec [⟨7, "m1", "positive", 0⟩] 7).2.2.2.1 (by decide)
  rw [h]
  decide

/-- C2: for a free-text message whose stripped text is nonempty and does
not start with the command marker, analyze_sentiment lower-cases the
gateway label, persists a sentiment record carrying that lower-cased
label regardless of the reply branch, and replies positive when the label
contains positive, else negative when it contains negative, else neutral;
the label Slightly Positive and hopeful is classified positive by
substring containment. -/
theorem c2_analyze_sentiment_spec (chat_id : Int) (now : Nat) (text label : String)
    (h1 : stripStr text ≠ "") (h2 : startsWithSlash (stripStr text) = false) :
    analyze_sentiment chat_id now text label =
      some (⟨chat_id, stripStr text, toLowerStr (stripStr label), now⟩,
            sentimentReply (toLowerStr (stripStr label)))
  ∧ (strContains (toLowerStr (stripStr label)) "positive" = true →
      sentimentReply (toLowerStr (stripStr label)) = positiveReply)
  ∧ (strContains (toLowerStr (stripStr label)) "positive" = false →
      strContains (toLowerStr (stripStr label)) "negative" = true →
      sentimentReply (toLowerStr (stripStr label)) = negativeReply)
  ∧ (strContains (toLowerStr (stripStr label)) "positive" = false →
      strContains (toLowerStr (stripStr label)) "negative" = false →
      sentimentReply (toLowerStr (stripStr label)) = neutralReply)
  ∧ strContains (toLowerStr (stripStr "Slightly Positive and hopeful")) "positive" = true
  ∧ sentimentReply (toLowerStr (stripStr "Slightly Positive and hopeful")) = positiveReply := by
  refine ⟨?_, ?_, ?_, ?_, by decide, by decide⟩
  · simp [analyze_sentiment, h1, h2]
  · intro hp
    simp [sentimentReply, hp]
  · intro hp hn
    simp [sentimentReply, hp, hn]
  · intro hp hn
    simp [sentimentReply, hp, hn]

/-- Witness for C2 at a concrete message and gateway label. -/
theorem c2_analyze_sentiment_spec_witness :
    analyze_sentiment 1 0 " Great day " "Slightly Positive and hopeful" =
      some (⟨1, "Great day", "slightly positive and hopeful", 0⟩, positiveReply) := by
  have h := c2_analyze_sentiment_spec 1 0 " Great day " "Slightly Positive and hopeful"
    (by decide) (by decide)
  rw [h.1]
  decide

/-- C9: for a chat with zero sentiment records the report is the start
chatting prompt, and every statistics report has a positive total, so the
integer-percent rendering is never applied with a zero divisor. -/
theorem c9_empty_report_no_division (store : List SRecord) (c : Int) :
    ((∀ r ∈ store, r.chat_id ≠ c) →
      fetchRecords store c = [] ∧
      generate_sentiment_report (fetchRecords store c) = Report.startPrompt)
  ∧ (∀ (rs : List SRecord) (p n g t pp pn pg : Nat) (m : String),
      generate_sentiment_report rs = Report.stats p n g t pp pn pg m → 0 < t) := by
  constructor
  · intro h
    have hf : store.filter (fun r => r.chat_id == c) = [] := by
      rw [List.filter_eq_nil_iff]
      intro r hr
      simpa using h r hr
    have : fetchRecords store c = [] := by
      unfold fetchRecords
      rw [hf]
      rfl
    exact ⟨this, by rw [this]; rfl⟩
  · intro rs p n g t pp pn pg m h
    by_cases hrs : rs = []
    · subst hrs
      simp [generate_sentiment_report] at h
    · unfold generate_sentiment_report at h
      rw [if_neg hrs] at h
      injection h with e1 e2 e3 e4 e5 e6 e7 e8
      subst e4
      exact List.length_pos.mpr hrs

/-- Witness for C9 at a store holding only another chat. -/
theorem c9_empty_report_no_division_witness :
    generate_sentiment_report (fetchRecords [⟨3, "x", "positive", 0⟩] 5) =
      Report.startPrompt :=
  ((c9_empty_report_no_division [⟨3, "x", "positive", 0⟩] 5).1 (by decide)).2

/-- C10: a lower-cased label containing both positive and negative as
substrings gets the positive reply (the positive branch is checked
first), and a record carrying it is counted in both the positive and the
negative counter of the report, so the bucket counts can sum to more than
total. -/
theorem c10_both_substrings (r : SRecord)
    (hp : strContains r.sentiment "positive" = true)
    (hn : strContains r.sentiment "negative" = true) :
    sentimentReply r.sentiment = positiveReply
  ∧ ∃ n : Nat,
      generate_sentiment_report [r] =
        Report.stats 1 n 1 1 (pctRound 1 1) (pctRound n 1) (pctRound 1 1)
          "⚖️ Balanced Emotions"
    ∧ 1 < 1 + n + 1 := by
  refine ⟨by simp [sentimentReply, hp],
    List.countP (fun x => strContains x.sentiment "neutral") [r], ?_, by omega⟩
  simp [generate_sentiment_report, List.countP_cons, hp, hn, moodOf]

/-- Witness for C10 at a concrete label containing both words. -/
theorem c10_both_substrings_witness :
    sentimentReply (SRecord.sentiment ⟨0, "m", "both positive and negative", 0⟩) =
      positiveReply :=
  (c10_both_substrings ⟨0, "m", "both positive and negative", 0⟩
    (by decide) (by decide)).1

lemma profileCount_step (store : List Profile) (m : StartMsg)
    (h : profileCount store m.chat_id ≤ 1) :
    profileCount (handle_start store m).1 m.chat_id ≤ 1 := by
  unfold handle_start
  cases hfind : store.find? (fun u => u.chat_id == m.chat_id) with
  | none =>
    have h0 : store.countP (fun u => u.chat_id == m.chat_id) = 0 := by
      rw [List.countP_eq_zero]
      intro u hu
      exact List.find?_eq_none.mp hfind u hu
    show (store ++ [freshProfile m]).countP (fun u => u.chat_id == m.chat_id) ≤ 1
    rw [List.countP_append, h0]
    simp [freshProfile, List.countP_cons]
  | some u => exact h

lemma runStarts_count (c : Int) (ms : List StartMsg) :
    ∀ store : List Profile, (∀ m ∈ ms, m.chat_id = c) →
      profileCount store c ≤ 1 → profileCount (runStarts store ms) c ≤ 1 := by
  induction ms with
  | nil => intro store _ h; exact h
  | cons m ms ih =>
    intro store hall h
    have hm : m.chat_id = c := hall m (List.mem_cons_self m ms)
    have hstep : profileCount (handle_start store m).1 c ≤ 1 := by
      rw [← hm] at h ⊢
      exact profileCount_step store m h
    exact ih (handle_start store m).1 (fun x hx => hall x (List.mem_cons_of_mem m hx)) hstep

/-- C3: a /start invocation creates a profile (with the phone number
unset) only when none exists for the chat identifier, otherwise leaves
the store unchanged and shows the main menu; hence any sequence of /start
invocations from a chat preserves the at-most-one-profile invariant. -/
theorem c3_start_idempotent (store : List Profile) (c : Int) :
    (∀ m : StartMsg, m.chat_id = c →
      (store.find? (fun u => u.chat_id == c) = none →
        (handle_start store m).1 = store ++ [freshProfile m]
        ∧ (freshProfile m).phone_number = none
        ∧ (handle_start store m).2 = [welcomeMsg, phonePromptMsg])
    ∧ (store.find? (fun u => u.chat_id == c) ≠ none →
        (handle_start store m).1 = store ∧ (handle_start store m).2 = [mainMenuMsg]))
  ∧ (∀ ms : List StartMsg, (∀ m ∈ ms, m.chat_id = c) →
      profileCount store c ≤ 1 → profileCount (runStarts store ms) c ≤ 1) := by
  constructor
  · intro m hm
    subst hm
    constructor
    · intro hf
      unfold handle_start
      rw [hf]
      exact ⟨rfl, rfl, rfl⟩
    · intro hf
      unfold handle_start
      cases hfind : store.find? (fun u => u.chat_id == m.chat_id) with
      | none => exact absurd hfind hf
      | some u => exact ⟨rfl, rfl⟩
  · exact fun ms => runStarts_count c ms store

/-- Witness for C3: two /start invocations from an empty store leave at
most one profile. -/
theorem c3_start_idempotent_witness :
    profileCount (runStarts [] [⟨7, "A", none, 0⟩, ⟨7, "A", none, 1⟩]) 7 ≤ 1 :=
  (c3_start_idempotent [] 7).2 [⟨7, "A", none, 0⟩, ⟨7, "A", none, 1⟩]
    (by decide) (by decide)

lemma lookupPending_remove (p : List (Int × Cont)) (c : Int) :
    lookupPending (removePending p c) c = none := by
  have hf : (removePending p c).find? (fun e => e.1 == c) = none := by
    rw [List.find?_eq_none]
    intro x hx
    have hx2 := (List.mem_filter.mp hx).2
    simp only [bne_iff_ne, ne_eq] at hx2
    simp only [beq_iff_eq]
    exact hx2
  unfold lookupPending
  rw [hf]
  rfl

lemma dispatch_lookup_none {p : List (Int × Cont)} {m : Msg}
    (h : lookupPending p m.chat = none) :
    (dispatch p m).2 = Route.normal (routeNormal m).1 := by
  unfold dispatch
  rw [h]
  rcases hr : routeNormal m with ⟨r, reg⟩
  cases reg <;> simp [hr]

/-- C4: a registered pending step is consumed by exactly one subsequent
message of its chat: that message is routed to the continuation
regardless of any other routing rule, the table entry is cleared, and no
later message of the chat is routed to a consumed continuation by the
resulting table (exactly-once consumption). -/
theorem c4_pending_step_once (p : List (Int × Cont)) (c : Int) (k : Cont) (m : Msg)
    (hk : lookupPending p c = some k) (hm : m.chat = c) :
    (dispatch p m).2 = Route.step k
  ∧ lookupPending (dispatch p m).1 c = none
  ∧ ∀ m2 : Msg, m2.chat = c → ∀ k2 : Cont,
      (dispatch (dispatch p m).1 m2).2 ≠ Route.step k2 := by
  subst hm
  have hd : dispatch p m = (removePending p m.chat, Route.step k) := by
    unfold dispatch
    rw [hk]
  refine ⟨by rw [hd], by rw [hd]; exact lookupPending_remove p m.chat, ?_⟩
  intro m2 h2 k2
  have hnone : lookupPending (dispatch p m).1 m2.chat = none := by
    rw [hd, h2]
    exact lookupPending_remove p m.chat
  rw [dispatch_lookup_none hnone]
  simp

/-- Witness for C4: a pending web-search step is consumed by the next
message, cleared, and does not fire again. -/
theorem c4_pending_step_once_witness :
    (dispatch [((5 : Int), Cont.webSearch)] ⟨5, "hello"⟩).2 = Route.step Cont.webSearch
  ∧ lookupPending (dispatch [((5 : Int), Cont.webSearch)] ⟨5, "hello"⟩).1 5 = none
  ∧ (dispatch (dispatch [((5 : Int), Cont.webSearch)] ⟨5, "hello"⟩).1 ⟨5, "ok"⟩).2 ≠
      Route.step Cont.webSearch := by
  have h := c4_pending_step_once [((5 : Int), Cont.webSearch)] 5 Cont.webSearch
    ⟨5, "hello"⟩ (by decide) rfl
  exact ⟨h.1, h.2.1, h.2.2 ⟨5, "ok"⟩ rfl Cont.webSearch⟩

/-- Counterexample to C5 as stated: when the download faults after the
placeholder was sent, pdf_path is unbound, so os.remove in the finally
block raises NameError, the bare except fires and the placeholder
deletion is skipped — the placeholder message is never removed. -/
theorem c5_pdf_cleanup_counterexample :
    (handle_pdf ⟨true, false, true, true, true, [], true, "", true⟩).placeholderSent = true
  ∧ (handle_pdf ⟨true, false, true, true, true, [], true, "", true⟩).placeholderDeleted
      = false
  ∧ (handle_pdf ⟨true, false, true, true, true, [], true, "", true⟩).tempDeleted = false := by
  decide

/-- C5 amended: on every exit path on which the temporary file was
created on disk — successful classification, empty extracted text, and
any failure after open created the file, including a fault while writing
it — the temporary file is deleted and the placeholder removed; on a
failure before the file exists (while downloading, or open itself
failing) the os.remove in the finally block raises, the bare except
swallows it, and the placeholder message is not removed. -/
theorem c5_pdf_cleanup_amended (env : PdfEnv) (hm : env.mimeIsPdf = true) :
    (env.downloadOk = true → env.openOk = true →
      (handle_pdf env).tempCreated = true
      ∧ (handle_pdf env).tempDeleted = true
      ∧ (handle_pdf env).placeholderDeleted = true)
  ∧ ((env.downloadOk = false ∨ env.openOk = false) →
      (handle_pdf env).placeholderSent = true
      ∧ (handle_pdf env).placeholderDeleted = false
      ∧ (handle_pdf env).tempCreated = false
      ∧ (handle_pdf env).tempDeleted = false) := by
  rcases env with ⟨mime, dl, op, wr, ex, pg, cl, cr, sr⟩
  simp only at hm
  subst hm
  constructor
  · intro hdl hop
    simp only at hdl hop
    subst hdl
    subst hop
    unfold handle_pdf
    simp only [Bool.true_eq_false, if_false]
    cases wr <;> split_ifs <;> simp [finishPdf, pdfCleanup]
  · intro h
    rcases h with hdl | hop
    · simp only at hdl
      subst hdl
      simp [handle_pdf, finishPdf, pdfCleanup]
    · simp only at hop
      subst hop
      cases dl <;> simp [handle_pdf, finishPdf, pdfCleanup]

/-- Witness for the amended C5 on a write fault after a successful open:
the created file is removed and the placeholder deleted. -/
theorem c5_pdf_cleanup_amended_witness :
    (handle_pdf ⟨true, true, true, false, true, ["hello"], true, "resp", true⟩).tempDeleted
      = true
  ∧ (handle_pdf
      ⟨true, true, true, false, true, ["hello"], true, "resp", true⟩).placeholderDeleted
      = true := by
  have h := (c5_pdf_cleanup_amended
    ⟨true, true, true, false, true, ["hello"], true, "resp", true⟩ rfl).1 rfl rfl
  exact ⟨h.2.1, h.2.2⟩

/-- C6: whenever the Analyzing image placeholder was sent, the image
handler deletes it on every exit path — in particular when the inference
gateway (or any later analysis step) faults, in which case the error
apology is sent and the placeholder is still removed. -/
theorem c6_image_cleanup (env : ImgEnv) (h : env.placeholderOk = true) :
    (handle_image env).placeholderSent = true
  ∧ (handle_image env).placeholderDeleted = true
  ∧ (env.analysisOk = false →
      (handle_image env).sent = ["⚠️ Error: " ++ env.errText]) := by
  rcases env with ⟨pok, aok, d, e⟩
  simp only at h
  subst h
  cases aok <;> simp [handle_image]

/-- Witness for C6 at a faulting analysis. -/
theorem c6_image_cleanup_witness :
    (handle_image ⟨true, false, "", "boom"⟩).placeholderDeleted = true :=
  (c6_image_cleanup ⟨true, false, "", "boom"⟩ rfl).2.1

/-- C7: in the web-search flow with a nonempty stripped query, at least 3
gateway results yield the numbered list of exactly the top 3 results
(one formatted line per result), and an empty gateway result list yields
the explicit no-results reply — never an empty message. -/
theorem c7_web_search_spec (text : String) (organic : List SearchResult)
    (hq : stripStr text ≠ "") :
    (3 ≤ organic.length →
      process_web_search text organic =
        [searchingMsg,
         searchHeader (stripStr text) ++
           String.intercalate "\n"
             ((organic.take 3).enum.map (fun p => formatResult p.1 p.2))]
      ∧ (organic.take 3).length = 3)
  ∧ (organic = [] →
      process_web_search text organic = [searchingMsg, noResultsMsg]
      ∧ ∀ msg ∈ process_web_search text organic, msg ≠ "") := by
  constructor
  · intro h3
    have hlen : (organic.take 3).length = 3 := by
      rw [List.length_take]
      omega
    have hne : organic.take 3 ≠ [] := by
      intro h0
      rw [h0] at hlen
      simp at hlen
    refine ⟨?_, hlen⟩
    unfold process_web_search
    rw [if_neg hq, if_neg hne]
  · intro he
    subst he
    have heq : process_web_search text [] = [searchingMsg, noResultsMsg] := by
      unfold process_web_search
      rw [if_neg hq]
      rfl
    refine ⟨heq, ?_⟩
    rw [heq]
    intro msg hmsg
    rcases List.mem_cons.mp hmsg with rfl | h2
    · decide
    · rcases List.mem_cons.mp h2 with rfl | h3
      · decide
      · simp at h3

/-- Witness for C7: the query rust vs go with three gateway results
produces the three-line numbered reply. -/
theorem c7_web_search_spec_witness :
    process_web_search "rust vs go"
      [⟨"A", "a.com"⟩, ⟨"B", "b.com"⟩, ⟨"C", "c.com"⟩] =
      [searchingMsg,
       searchHeader "rust vs go" ++ String.intercalate "\n"
         [formatResult 0 ⟨"A", "a.com"⟩, formatResult 1 ⟨"B", "b.com"⟩,
          formatResult 2 ⟨"C", "c.com"⟩]] := by
  have h := (c7_web_search_spec "rust vs go"
    [⟨"A", "a.com"⟩, ⟨"B", "b.com"⟩, ⟨"C", "c.com"⟩] (by decide)).1 (by decide)
  rw [h.1]
  decide

/-- C8: a PDF whose extracted text is empty short-circuits to the
no-text-found reply and never invokes the classification prompt. -/
theorem c8_pdf_empty_text (env : PdfEnv)
    (hm : env.mimeIsPdf = true) (hd : env.downloadOk = true)
    (ho : env.openOk = true) (hw : env.writeOk = true)
    (he : extract_text_from_pdf env.extractOk env.pages = "") :
    (handle_pdf env).sent = [noTextMsg] ∧ (handle_pdf env).gatewayCalled = false := by
  rcases env with ⟨mime, dl, op, wr, ex, pg, cl, cr, sr⟩
  simp only at hm hd ho hw he
  subst hm
  subst hd
  subst ho
  subst hw
  unfold handle_pdf
  simp [he, finishPdf, pdfCleanup]

/-- Witness for C8 at a PDF with no extractable page text. -/
theorem c8_pdf_empty_text_witness :
    (handle_pdf ⟨true, true, true, true, true, [], true, "resp", true⟩).sent = [noTextMsg]
  ∧ (handle_pdf ⟨true, true, true, true, true, [], true, "resp", true⟩).gatewayCalled
      = false :=
  c8_pdf_empty_text ⟨true, true, true, true, true, [], true, "resp", true⟩ rfl rfl rfl rfl
    (by decide)

end Bot
